import Mathlib

/-!
Shallow embedding of `homework.py` (Mask763/check_status_bot), a Telegram
homework-status notifier.  The program is a poll → validate → format → notify
loop.  We model JSON values, the Python exceptions the script raises, the
validators `check_tokens`, `check_response`, `parse_status`, the API client
`get_api_answer`, the deduplicating `send_message` wrapper produced by the
`message_validator` decorator, and one iteration of the `while True`
loop in `main`.  External effects (HTTP transport, the Telegram SDK, the clock) enter
as explicit per-cycle inputs; observable side effects (outbound bot sends,
log lines, sleeps, polls) are collected as an event list.  The Telegram SDK
is a black box: following the `except telebot.apihelper.ApiException` clauses of the source
handlers we model a failing `bot.send_message` call as raising `ApiException`.
Unconditional debug-trace lines inside `get_api_answer`, `check_response` and
`parse_status` are not modelled as events; the log lines that matter to the control
flow of the loop (dedup skip, error logs, the no-change debug line, the
critical startup log) are.
-/

namespace CheckStatusBot

/-- JSON values, as parsed from the API response body.  Python `None` is
`Json.null`; `dict.get` on a missing key also yields `None`, so `Json.null`
plays both roles, exactly as in the Python code. -/
inductive Json where
  | null
  | bool (b : Bool)
  | num (n : Int)
  | str (s : String)
  | arr (items : List Json)
  | obj (fields : List (String × Json))

/-- Short Python class name of a value (`type(v).__name__`). -/
def Json.pyType : Json → String
  | .null => "NoneType"
  | .bool _ => "bool"
  | .num _ => "int"
  | .str _ => "str"
  | .arr _ => "list"
  | .obj _ => "dict"

/-- Rendering of `type(v)` as it appears inside the f-strings of the
script, e.g. `<class \x27dict\x27>`. -/
def Json.typeName (j : Json) : String :=
  "<class \x27" ++ j.pyType ++ "\x27>"

/-- Python `repr` of a JSON-like value (used for values nested in
containers). -/
def Json.pyRepr : Json → String
  | .null => "None"
  | .bool true => "True"
  | .bool false => "False"
  | .num n => toString n
  | .str s => "\x27" ++ s ++ "\x27"
  | .arr items =>
      "[" ++ String.intercalate ", " (items.attach.map (fun x => x.1.pyRepr)) ++ "]"
  | .obj fields =>
      "\x7b" ++
        String.intercalate ", "
          (fields.attach.map
            (fun x => "\x27" ++ x.1.1 ++ "\x27: " ++ x.1.2.pyRepr)) ++
      "\x7d"
decreasing_by
  · have := List.sizeOf_lt_of_mem x.2
    simp_wf
    omega
  · rcases x with ⟨⟨a, b⟩, hx⟩
    have h1 := List.sizeOf_lt_of_mem hx
    simp_wf
    simp only [Prod.mk.sizeOf_spec] at h1
    omega

/-- Is the value Python `None`? -/
def Json.isNull : Json → Bool
  | .null => true
  | _ => false

/-- Python `str` of a JSON-like value (what an f-string interpolation
produces): strings render bare, everything else as `repr`. -/
def Json.pyStr : Json → String
  | .str s => s
  | v => v.pyRepr

/-- Python `d.get(key)`: the stored value, or `None` when the key is absent.
Only meaningful on `obj` values; on anything else the script never calls it
without first checking the type. -/
def Json.pyGet (j : Json) (key : String) : Json :=
  match j with
  | .obj fields =>
      match fields.find? (fun p => p.1 == key) with
      | some p => p.2
      | none => .null
  | _ => .null

def Json.isObj : Json → Bool
  | .obj _ => true
  | _ => false

def Json.isArr : Json → Bool
  | .arr _ => true
  | _ => false

/-- The Python exceptions the script can raise, with the data each message
interpolates carried structurally. -/
inductive PyError where
  /-- `ValueError` from `check_tokens`, listing the missing variable names. -/
  | missingEnvVars (vars : List String)
  /-- `ConnectionError` from `get_api_answer` on a transport failure. -/
  | connectionFailed (endpoint : String) (timestamp : Int) (cause : String)
  /-- `ValueError` from `get_api_answer` on a non-200 status code. -/
  | endpointUnavailable (endpoint : String) (timestamp : Int) (statusCode : Nat)
  /-- `TypeError` from `check_response`: response is not a dict. -/
  | responseNotDict (typeName : String)
  /-- `KeyError` from `check_response`: no `homeworks` key. -/
  | homeworksKeyMissing
  /-- `TypeError` from `check_response`: `homeworks` is not a list. -/
  | homeworksNotList (typeName : String)
  /-- `KeyError` from `parse_status`: no `homework_name` key. -/
  | homeworkNameMissing
  /-- `ValueError` from `parse_status`: status not a key of the verdict
  table (carries the offending status value; `null` stands for Python
  `None`). -/
  | unknownStatus (status : Json)
  /-- `AttributeError`: `.get` called on a non-dict homework entry. -/
  | attributeError (pyType : String)
  /-- `TypeError`: an unhashable status value used in `not in` on a dict. -/
  | unhashableType (pyType : String)
  /-- `telebot.apihelper.ApiException` from `bot.send_message`. -/
  | apiException (cause : String)

/-- The Python rendering of a list of strings, quoted and bracketed. -/
def pyListRepr (xs : List String) : String :=
  "[" ++ String.intercalate ", " (xs.map (fun s => "\x27" ++ s ++ "\x27")) ++ "]"

/-- `str(e)` for each exception, exactly as the f-strings of the script build
the messages (for `KeyError`, Python `str` wraps the argument in quotes). -/
def PyError.str : PyError → String
  | .missingEnvVars vars =>
      "Отсутствуют обязательные переменные окружения: " ++ pyListRepr vars
  | .connectionFailed endpoint timestamp cause =>
      "Ошибка при выполнении запроса к эндпоинту " ++ endpoint ++
        " с параметром " ++ toString timestamp ++ ": " ++ cause
  | .endpointUnavailable endpoint timestamp statusCode =>
      "Эндпоинт " ++ endpoint ++ " с параметром " ++ toString timestamp ++
        " недоступен: " ++ toString statusCode
  | .responseNotDict typeName =>
      "Ответ API не является словарем. Получен тип данных: " ++ typeName
  | .homeworksKeyMissing =>
      "\x27В ответе API нет ключа \x60homeworks\x60.\x27"
  | .homeworksNotList typeName =>
      "Ключ \x60homeworks\x60 не является списком. Получен тип данных: " ++ typeName
  | .homeworkNameMissing =>
      "\x27В ответе API нет ключа \x60homework_name\x60.\x27"
  | .unknownStatus status =>
      "Неизвестное значение статуса домашней работы: " ++ status.pyStr
  | .attributeError pyType =>
      "\x27" ++ pyType ++ "\x27 object has no attribute \x27get\x27"
  | .unhashableType pyType =>
      "unhashable type: \x27" ++ pyType ++ "\x27"
  | .apiException cause => cause

/-- Is the exception a `telebot.apihelper.ApiException` (the class the first
`except` clause of the loop and the `suppress` context manager look for)? -/
def PyError.isApiException : PyError → Bool
  | .apiException _ => true
  | _ => false

/-- `RETRY_PERIOD = 600`. -/
def RETRY_PERIOD : Nat := 600

/-- `ENDPOINT` constant of the script. -/
def ENDPOINT : String :=
  "https://practicum.yandex.ru/api/user_api/homework_statuses/"

/-- `HOMEWORK_VERDICTS` constant: the fixed status → verdict table. -/
def HOMEWORK_VERDICTS : List (String × String) :=
  [("approved", "Работа проверена: ревьюеру всё понравилось. Ура!"),
   ("reviewing", "Работа взята на проверку ревьюером."),
   ("rejected", "Работа проверена: у ревьюера есть замечания.")]

/-- Dictionary lookup in `HOMEWORK_VERDICTS`. -/
def verdictsFind (s : String) : Option String :=
  match HOMEWORK_VERDICTS.find? (fun p => p.1 == s) with
  | some p => some p.2
  | none => none

/-- Observable side effects of the script. -/
inductive Event where
  /-- An HTTP GET against `ENDPOINT` with `from_date` set to `timestamp`. -/
  | apiPoll (timestamp : Int)
  /-- An outbound `bot.send_message(chat_id, text)` call. -/
  | botSend (chatId : String) (text : String)
  | logDebug (text : String)
  | logError (text : String)
  | logCritical (text : String)
  | sleep (seconds : Nat)
deriving Repr, DecidableEq

def Event.isBotSend : Event → Bool
  | .botSend _ _ => true
  | _ => false

def Event.isApiPoll : Event → Bool
  | .apiPoll _ => true
  | _ => false

def Event.isSleep : Event → Bool
  | .sleep _ => true
  | _ => false

def Event.isLogError : Event → Bool
  | .logError _ => true
  | _ => false

/-- Number of outbound `bot.send_message` calls in an event trace. -/
def countBotSends (evs : List Event) : Nat :=
  (evs.filter Event.isBotSend).length

def countSleeps (evs : List Event) : Nat :=
  (evs.filter Event.isSleep).length

def hasLogError (evs : List Event) : Bool :=
  evs.any Event.isLogError

/-- The `from_date` values of the polls in a trace, in order. -/
def pollTimestamps (evs : List Event) : List Int :=
  evs.filterMap (fun e =>
    match e with
    | .apiPoll t => some t
    | _ => none)

/-- The three module-level environment reads (`os.getenv` yields `None` for
an unset variable). -/
structure Env where
  PRACTICUM_TOKEN : Option String
  TELEGRAM_TOKEN : Option String
  TELEGRAM_CHAT_ID : Option String

/-- Python truthiness test `not global_vars.get(var)` used by
`check_tokens`: `None` and the empty string are falsy. -/
def falsyEnvVar : Option String → Bool
  | none => true
  | some s => s == ""

/-- `check_tokens`: collects the required variables whose values are falsy;
if any, logs at critical severity and raises `ValueError` naming them. -/
def check_tokens (env : Env) : Except PyError Unit × List Event :=
  let required_vars : List (String × Option String) :=
    [("PRACTICUM_TOKEN", env.PRACTICUM_TOKEN),
     ("TELEGRAM_TOKEN", env.TELEGRAM_TOKEN),
     ("TELEGRAM_CHAT_ID", env.TELEGRAM_CHAT_ID)]
  let missing_vars := (required_vars.filter (fun p => falsyEnvVar p.2)).map Prod.fst
  if missing_vars.isEmpty then
    (.ok (), [])
  else
    (.error (.missingEnvVars missing_vars),
     [.logCritical
        ("Отсутствуют обязательные переменные окружения: " ++
          pyListRepr missing_vars)])

/-- Initial value of the `previous_message` cell closed over by the
`message_validator` decorator (set once, when the module is imported). -/
def initialPreviousMessage : String := ""

/-- One call to the decorated `send_message(bot, message)`.

`previous_message` is the remembered cell of the wrapper before the call.
`botRaises` says whether this particular `bot.send_message` call raises
`ApiException` (the Telegram SDK is external; following the
`except telebot.apihelper.ApiException` handlers, an `ApiException` is the
failure it can signal).  Returns the raised exception (if any), the cell
after the call, and the observable events.  When the underlying call
raises, the assignment `previous_message = message` on the line after it is
never reached, so the cell is unchanged. -/
def send_message (chatId : String) (botRaises : Bool)
    (message previous_message : String) :
    Option PyError × String × List Event :=
  if message ≠ previous_message then
    if botRaises then
      (some (.apiException "A request to the Telegram API was unsuccessful."),
       previous_message,
       [.logDebug "Пытаюсь отправить сообщение в Telegram."])
    else
      (none, message,
       [.logDebug "Пытаюсь отправить сообщение в Telegram.",
        .botSend chatId message,
        .logDebug "Сообщение успешно отправлено в Telegram."])
  else
    (none, previous_message,
     [.logDebug "Полуено повторяющееся сообщение. Пропускаю."])

/-- A sequence of calls to the decorated `send_message`, each with a
non-raising bot, threading the `previous_message` cell.  Returns the final
cell value and the concatenated events. -/
def sendAll (chatId : String) (messages : List String)
    (previous_message : String) : String × List Event :=
  match messages with
  | [] => (previous_message, [])
  | m :: rest =>
    let r := send_message chatId false m previous_message
    let r2 := sendAll chatId rest r.2.1
    (r2.1, r.2.2 ++ r2.2)

/-- What the HTTP layer does for one `requests.get` call: either the
transport fails, or a response with some status code and (parsed JSON)
body comes back. -/
inductive HttpOutcome where
  | transportError (cause : String)
  | response (statusCode : Nat) (body : Json)

/-- `get_api_answer(timestamp)`: wraps a transport failure in
`ConnectionError`, raises `ValueError` on a status code other than
`HTTPStatus.OK` (200), and otherwise returns the parsed JSON body. -/
def get_api_answer (timestamp : Int) (outcome : HttpOutcome) :
    Except PyError Json :=
  match outcome with
  | .transportError cause =>
      .error (.connectionFailed ENDPOINT timestamp cause)
  | .response statusCode body =>
      if statusCode ≠ 200 then
        .error (.endpointUnavailable ENDPOINT timestamp statusCode)
      else
        .ok body

/-- `check_response(response)`: the response must be a dict, must have a
`homeworks` key (Python `dict.get` conflates a stored `None` with an absent
key), and `homeworks` must be a list.  Returns nothing on success. -/
def check_response (response : Json) : Except PyError Unit :=
  if response.isObj = false then
    .error (.responseNotDict response.typeName)
  else
    let homeworks := response.pyGet "homeworks"
    if homeworks.isNull then
      .error .homeworksKeyMissing
    else if homeworks.isArr = false then
      .error (.homeworksNotList homeworks.typeName)
    else
      .ok ()

/-- `parse_status(homework)`: requires a `homework_name` key (again via
`dict.get`, so a stored `None` counts as absent) and a `status` that is a
key of `HOMEWORK_VERDICTS`; formats the notification sentence.  A non-dict
entry makes the first `.get` raise `AttributeError`; an unhashable status
value (list/dict) makes `not in` raise `TypeError`, as in Python. -/
def parse_status (homework : Json) : Except PyError String :=
  if homework.isObj = false then
    .error (.attributeError homework.pyType)
  else
    let homework_name := homework.pyGet "homework_name"
    if homework_name.isNull then
      .error .homeworkNameMissing
    else
      let homework_status := homework.pyGet "status"
      match homework_status with
      | .arr _ => .error (.unhashableType "list")
      | .obj _ => .error (.unhashableType "dict")
      | .str s =>
        match verdictsFind s with
        | some verdict =>
            .ok ("Изменился статус проверки работы \"" ++
              homework_name.pyStr ++ "\". " ++ verdict)
        | none => .error (.unknownStatus homework_status)
      | other => .error (.unknownStatus other)

/-- The two memory cells the loop in `main` reads and writes: the `timestamp`
cursor and the `previous_message` cell of the `send_message` wrapper. -/
structure LoopState where
  timestamp : Int
  previous_message : String
deriving Repr, DecidableEq

/-- Everything external one loop iteration consumes: what the HTTP layer
does, whether each of the (at most two) `bot.send_message` calls raises,
and the value `int(time.time())` would return at the cursor-advance line. -/
structure CycleInput where
  api : HttpOutcome
  mainSendRaises : Bool
  errorSendRaises : Bool
  now : Int

/-- The `try` block of one iteration of the `while True` loop in `main`
(lines 147-156): fetch, validate, and when `homeworks` is truthy
(a non-empty list), format the first entry, send it, and set the cursor to
now; otherwise log a debug line.  Returns the exception that escapes the
block, if any, together with the state and events. -/
def cycleBody (chatId : String) (inp : CycleInput) (st : LoopState) :
    Except PyError LoopState × List Event :=
  let poll : List Event := [.apiPoll st.timestamp]
  match get_api_answer st.timestamp inp.api with
  | .error e => (.error e, poll)
  | .ok response =>
    match check_response response with
    | .error e => (.error e, poll)
    | .ok _ =>
      match response.pyGet "homeworks" with
      | .arr (last_homework :: _) =>
        match parse_status last_homework with
        | .error e => (.error e, poll)
        | .ok message =>
          match send_message chatId inp.mainSendRaises message
              st.previous_message with
          | (some e, _, evs) => (.error e, poll ++ evs)
          | (none, prev, evs) =>
            (.ok { timestamp := inp.now, previous_message := prev },
             poll ++ evs)
      | _ =>
        (.ok st, poll ++ [.logDebug "Статус домашней работы не изменился."])

/-- One full iteration of the loop in `main`: the `try` body, the
`except telebot.apihelper.ApiException` clause, the `except Exception`
clause (which logs, then best-effort notifies the operator inside
`with suppress(telebot.apihelper.ApiException)`), and the unconditional
`finally: time.sleep(RETRY_PERIOD)`. -/
def mainCycle (chatId : String) (inp : CycleInput) (st : LoopState) :
    LoopState × List Event :=
  match cycleBody chatId inp st with
  | (.ok st2, evs) => (st2, evs ++ [.sleep RETRY_PERIOD])
  | (.error e, evs) =>
    if e.isApiException then
      (st,
       evs ++ [.logError ("Сбой при отправке сообщения: " ++ e.str),
         .sleep RETRY_PERIOD])
    else
      match send_message chatId inp.errorSendRaises
          ("Сбой в работе программы: " ++ e.str) st.previous_message with
      | (none, prev, evs2) =>
        ({ st with previous_message := prev },
         evs ++ [.logError ("Сбой в работе программы: " ++ e.str)] ++
           evs2 ++ [.sleep RETRY_PERIOD])
      | (some _, _, evs2) =>
        (st,
         evs ++ [.logError ("Сбой в работе программы: " ++ e.str)] ++
           evs2 ++ [.sleep RETRY_PERIOD])

/-- Run the loop for one cycle per element of `inputs`. -/
def runLoop (chatId : String) (inputs : List CycleInput) (st : LoopState) :
    LoopState × List Event :=
  match inputs with
  | [] => (st, [])
  | inp :: rest =>
    let r := mainCycle chatId inp st
    let r2 := runLoop chatId rest r.1
    (r2.1, r.2 ++ r2.2)

/-- `main`: `check_tokens()` runs first; if it raises, the process dies with
the uncaught `ValueError` and the loop is never entered.  Otherwise the
loop starts with the cursor at `int(time.time())` (`startTime`) and the
wrapper cell at its module-import value.  Returns the whole event trace. -/
def mainStart (env : Env) (startTime : Int) (inputs : List CycleInput) :
    List Event :=
  match check_tokens env with
  | (.error _, evs) => evs
  | (.ok _, evs) =>
    evs ++ (runLoop (env.TELEGRAM_CHAT_ID.getD "None") inputs
      { timestamp := startTime, previous_message := initialPreviousMessage }).2

lemma Json.isNull_iff (j : Json) : j.isNull = true ↔ j = .null := by
  cases j <;> simp [Json.isNull]

lemma countSleeps_append (xs ys : List Event) :
    countSleeps (xs ++ ys) = countSleeps xs + countSleeps ys := by
  simp [countSleeps, List.filter_append]

lemma countBotSends_append (xs ys : List Event) :
    countBotSends (xs ++ ys) = countBotSends xs + countBotSends ys := by
  simp [countBotSends, List.filter_append]

lemma pollTimestamps_append (xs ys : List Event) :
    pollTimestamps (xs ++ ys) = pollTimestamps xs ++ pollTimestamps ys := by
  simp [pollTimestamps, List.filterMap_append]

lemma send_message_no_sleep (chatId : String) (b : Bool) (m p : String) :
    countSleeps (send_message chatId b m p).2.2 = 0 := by
  rw [send_message]
  split_ifs <;> rfl

lemma send_message_no_poll (chatId : String) (b : Bool) (m p : String) :
    pollTimestamps (send_message chatId b m p).2.2 = [] := by
  rw [send_message]
  split_ifs <;> rfl

/-- C1 (counterexample to the claim as stated): from a fresh wrapper, whose
remembered cell is initialized to the empty string, sending the empty
string twice in a row results in zero outbound bot calls, not one. -/
theorem claim_C1_counterexample :
    countBotSends (sendAll "chat" ["", ""] initialPreviousMessage).2 = 0 ∧
    countBotSends (sendAll "chat" ["", ""] initialPreviousMessage).2 ≠ 1 := by
  constructor <;> decide

/-- C1 (amended): for messages distinct from the initial
remembered value (the empty string), sending the same text twice in a row
from a fresh wrapper yields exactly one outbound bot call, two different
texts yield two, and the same text again after a different text in between
yields three; the remembered cell is unchanged when the underlying bot call
raises and when the send is skipped as a duplicate. -/
theorem claim_C1 (chatId a b p m : String) (ha : a ≠ "") (hab : a ≠ b) :
    countBotSends (sendAll chatId [a, a] initialPreviousMessage).2 = 1 ∧
    countBotSends (sendAll chatId [a, b] initialPreviousMessage).2 = 2 ∧
    countBotSends (sendAll chatId [a, b, a] initialPreviousMessage).2 = 3 ∧
    (send_message chatId true m p).2.1 = p ∧
    (send_message chatId false p p).2.1 = p := by
  have hba : b ≠ a := Ne.symm hab
  refine ⟨?_, ?_, ?_, ?_, ?_⟩
  · simp [sendAll, send_message, countBotSends, Event.isBotSend,
      initialPreviousMessage, ha, hab, hba]
  · simp [sendAll, send_message, countBotSends, Event.isBotSend,
      initialPreviousMessage, ha, hab, hba]
  · simp [sendAll, send_message, countBotSends, Event.isBotSend,
      initialPreviousMessage, ha, hab, hba]
  · by_cases hmp : m = p <;> simp [send_message, hmp]
  · simp [send_message]

/-- C1 witness: concrete instance of the amended dedup property. -/
theorem claim_C1_witness :
    countBotSends (sendAll "chat" ["x", "x"] initialPreviousMessage).2 = 1 :=
  (claim_C1 "chat" "x" "y" "p" "m" (by decide) (by decide)).1

/-- C10: the remembered cell of the wrapper starts as the empty string, so the
very first call whose message is the empty string is treated as a repeat:
no outbound bot call, no cell update, only the skip debug line. -/
theorem claim_C10 (chatId : String) (botRaises : Bool) :
    send_message chatId botRaises "" initialPreviousMessage =
      (none, initialPreviousMessage,
        [.logDebug "Полуено повторяющееся сообщение. Пропускаю."]) := by
  simp [send_message, initialPreviousMessage]

/-- C2: for a homework record (a dict) whose `status` is a key of
`HOMEWORK_VERDICTS` and whose `homework_name` is a non-empty string,
`parse_status` returns exactly the sentence built from the name and the
verdict the table holds for that status. -/
theorem claim_C2 (hw : Json) (name status verdict : String)
    (hobj : hw.isObj = true)
    (hname : hw.pyGet "homework_name" = .str name)
    (hst : hw.pyGet "status" = .str status)
    (hv : verdictsFind status = some verdict)
    (hne : name ≠ "") :
    parse_status hw = .ok
      ("Изменился статус проверки работы \"" ++ name ++ "\". " ++ verdict) := by
  simp [parse_status, hobj, hname, hst, hv, Json.isNull, Json.pyStr]

/-- C2 witness: the record `proj1`/`approved` formats to exactly the
sentence the claim spells out. -/
theorem claim_C2_witness :
    parse_status
        (.obj [("homework_name", .str "proj1"), ("status", .str "approved")]) =
      .ok "Изменился статус проверки работы \"proj1\". Работа проверена: ревьюеру всё понравилось. Ура!" :=
  claim_C2 (.obj [("homework_name", .str "proj1"), ("status", .str "approved")])
    "proj1" "approved" "Работа проверена: ревьюеру всё понравилось. Ура!"
    rfl rfl rfl rfl (by decide)

/-- C3: for a homework record (a dict) whose `homework_name` passes the
presence check, a `status` that is absent or is a string outside the
verdict table makes `parse_status` raise exactly the unknown-status
`ValueError` carrying that status value — no other error kind. -/
theorem claim_C3 (hw : Json) (hobj : hw.isObj = true)
    (hname : (hw.pyGet "homework_name").isNull = false)
    (hstatus : (hw.pyGet "status").isNull = true ∨
      ∃ s, hw.pyGet "status" = .str s ∧ verdictsFind s = none) :
    parse_status hw = .error (.unknownStatus (hw.pyGet "status")) := by
  rcases hstatus with hnull | ⟨s, hs, hv⟩
  · have h0 : hw.pyGet "status" = .null := (Json.isNull_iff _).1 hnull
    simp [parse_status, hobj, hname, h0]
  · simp [parse_status, hobj, hname, hs, hv]

/-- C3 witness: a record with name present and status `weird` raises the
unknown-status error carrying `weird`. -/
theorem claim_C3_witness :
    parse_status (.obj [("homework_name", .str "n"), ("status", .str "weird")]) =
      .error (.unknownStatus (.str "weird")) :=
  claim_C3 (.obj [("homework_name", .str "n"), ("status", .str "weird")])
    rfl rfl (.inr ⟨"weird", rfl, rfl⟩)

/-- C4: `check_response` checks in order: a non-dict value raises the type
error naming the type of the value; a dict without a `homeworks` key raises the
missing-key error; a non-list `homeworks` raises the type error naming its
type; a dict whose `homeworks` is an empty list raises nothing. -/
theorem claim_C4 (v w : Json) :
    (v.isObj = false → check_response v = .error (.responseNotDict v.typeName)) ∧
    (v.isObj = true → (v.pyGet "homeworks").isNull = true →
      check_response v = .error .homeworksKeyMissing) ∧
    (v.isObj = true → v.pyGet "homeworks" = w → w.isNull = false →
      w.isArr = false →
      check_response v = .error (.homeworksNotList w.typeName)) ∧
    (v.isObj = true → v.pyGet "homeworks" = .arr [] →
      check_response v = .ok ()) := by
  refine ⟨?_, ?_, ?_, ?_⟩
  · intro h1
    simp [check_response, h1]
  · intro h1 h2
    simp [check_response, h1, h2]
  · intro h1 h2 h3 h4
    simp [check_response, h1, h2, h3, h4]
  · intro h1 h2
    simp [check_response, h1, h2, Json.isNull, Json.isArr]

/-- C4 witness: a non-dict response raises the type error naming `int`. -/
theorem claim_C4_witness :
    check_response (.num 5) = .error (.responseNotDict "<class \x27int\x27>") :=
  (claim_C4 (.num 5) .null).1 rfl

/-- C8: `get_api_answer` raises exactly the `ConnectionError` carrying the
endpoint, the timestamp and the cause on a transport failure, exactly the
availability `ValueError` carrying the endpoint, the timestamp and the
status code on a non-200 response, and returns the parsed body on 200. -/
theorem claim_C8 (timestamp : Int) (cause : String) (statusCode : Nat)
    (body : Json) (h : statusCode ≠ 200) :
    get_api_answer timestamp (.transportError cause) =
      .error (.connectionFailed ENDPOINT timestamp cause) ∧
    get_api_answer timestamp (.response statusCode body) =
      .error (.endpointUnavailable ENDPOINT timestamp statusCode) ∧
    get_api_answer timestamp (.response 200 body) = .ok body := by
  refine ⟨rfl, ?_, by simp [get_api_answer]⟩
  simp [get_api_answer, h]

/-- C8 witness: a 503 response at timestamp 0 raises the availability error
carrying the endpoint, the timestamp and 503. -/
theorem claim_C8_witness :
    get_api_answer 0 (.response 503 .null) =
      .error (.endpointUnavailable ENDPOINT 0 503) :=
  (claim_C8 0 "boom" 503 .null (by decide)).2.1

lemma countSleeps_apiPoll (t : Int) : countSleeps [Event.apiPoll t] = 0 := rfl

lemma countSleeps_logErr (m : String) : countSleeps [Event.logError m] = 0 := rfl

lemma countSleeps_sleep (n : Nat) : countSleeps [Event.sleep n] = 1 := rfl

lemma countSleeps_logErr_sleep (m : String) (n : Nat) :
    countSleeps [Event.logError m, Event.sleep n] = 1 := rfl

lemma pollTimestamps_apiPoll (t : Int) :
    pollTimestamps [Event.apiPoll t] = [t] := rfl

lemma pollTimestamps_logErr (m : String) :
    pollTimestamps [Event.logError m] = [] := rfl

lemma pollTimestamps_sleep (n : Nat) :
    pollTimestamps [Event.sleep n] = [] := rfl

lemma pollTimestamps_logErr_sleep (m : String) (n : Nat) :
    pollTimestamps [Event.logError m, Event.sleep n] = [] := rfl

lemma countSleeps_cons_apiPoll (t : Int) (evs : List Event) :
    countSleeps (Event.apiPoll t :: evs) = countSleeps evs := rfl

lemma countSleeps_cons_logErr (m : String) (evs : List Event) :
    countSleeps (Event.logError m :: evs) = countSleeps evs := rfl

lemma pollTimestamps_cons_apiPoll (t : Int) (evs : List Event) :
    pollTimestamps (Event.apiPoll t :: evs) = t :: pollTimestamps evs := rfl

lemma pollTimestamps_cons_logErr (m : String) (evs : List Event) :
    pollTimestamps (Event.logError m :: evs) = pollTimestamps evs := rfl

lemma cycleBody_no_sleep (chatId : String) (inp : CycleInput) (st : LoopState) :
    countSleeps (cycleBody chatId inp st).2 = 0 := by
  rw [cycleBody]
  split
  · rfl
  split
  · rfl
  split
  · split
    · rfl
    · rename_i msg hps
      have h := send_message_no_sleep chatId inp.mainSendRaises msg
        st.previous_message
      rcases hsend : send_message chatId inp.mainSendRaises msg
        st.previous_message with ⟨o, prev, sevs⟩
      rw [hsend] at h
      have h2 : countSleeps sevs = 0 := h
      cases o <;>
        simp [hsend, countSleeps_append, countSleeps_apiPoll,
          countSleeps_cons_apiPoll, h2]
  · rfl

lemma cycleBody_polls (chatId : String) (inp : CycleInput) (st : LoopState) :
    pollTimestamps (cycleBody chatId inp st).2 = [st.timestamp] := by
  rw [cycleBody]
  split
  · rfl
  split
  · rfl
  split
  · split
    · rfl
    · rename_i msg hps
      have h := send_message_no_poll chatId inp.mainSendRaises msg
        st.previous_message
      rcases hsend : send_message chatId inp.mainSendRaises msg
        st.previous_message with ⟨o, prev, sevs⟩
      rw [hsend] at h
      have h2 : pollTimestamps sevs = [] := h
      cases o <;>
        simp [hsend, pollTimestamps_append, pollTimestamps_apiPoll,
          pollTimestamps_cons_apiPoll, h2]
  · rfl

lemma mainCycle_one_sleep (chatId : String) (inp : CycleInput) (st : LoopState) :
    countSleeps (mainCycle chatId inp st).2 = 1 := by
  have h0 := cycleBody_no_sleep chatId inp st
  rw [mainCycle]
  split
  · rename_i st2 evs heq
    rw [heq] at h0
    have h2 : countSleeps evs = 0 := h0
    simp [countSleeps_append, countSleeps_sleep, h2]
  · rename_i e evs heq
    rw [heq] at h0
    have h2 : countSleeps evs = 0 := h0
    split
    · simp [countSleeps_append, countSleeps_logErr_sleep, h2]
    · have hs := send_message_no_sleep chatId inp.errorSendRaises
        ("Сбой в работе программы: " ++ e.str) st.previous_message
      split
      · rename_i prev evs2 hsend
        rw [hsend] at hs
        have hs2 : countSleeps evs2 = 0 := hs
        simp [countSleeps_append, countSleeps_logErr, countSleeps_sleep,
          countSleeps_cons_logErr, h2, hs2]
      · rename_i v f2 evs2 hsend
        rw [hsend] at hs
        have hs2 : countSleeps evs2 = 0 := hs
        simp [countSleeps_append, countSleeps_logErr, countSleeps_sleep,
          countSleeps_cons_logErr, h2, hs2]

lemma mainCycle_polls (chatId : String) (inp : CycleInput) (st : LoopState) :
    pollTimestamps (mainCycle chatId inp st).2 = [st.timestamp] := by
  have h0 := cycleBody_polls chatId inp st
  rw [mainCycle]
  split
  · rename_i st2 evs heq
    rw [heq] at h0
    have h2 : pollTimestamps evs = [st.timestamp] := h0
    simp [pollTimestamps_append, pollTimestamps_sleep, h2]
  · rename_i e evs heq
    rw [heq] at h0
    have h2 : pollTimestamps evs = [st.timestamp] := h0
    split
    · simp [pollTimestamps_append, pollTimestamps_logErr_sleep, h2]
    · have hs := send_message_no_poll chatId inp.errorSendRaises
        ("Сбой в работе программы: " ++ e.str) st.previous_message
      split
      · rename_i prev evs2 hsend
        rw [hsend] at hs
        have hs2 : pollTimestamps evs2 = [] := hs
        simp [pollTimestamps_append, pollTimestamps_logErr,
          pollTimestamps_sleep, pollTimestamps_cons_logErr, h2, hs2]
      · rename_i v f2 evs2 hsend
        rw [hsend] at hs
        have hs2 : pollTimestamps evs2 = [] := hs
        simp [pollTimestamps_append, pollTimestamps_logErr,
          pollTimestamps_sleep, pollTimestamps_cons_logErr, h2, hs2]

lemma mainCycle_error_timestamp (chatId : String) (inp : CycleInput)
    (st : LoopState) (e : PyError)
    (h : (cycleBody chatId inp st).1 = .error e) :
    (mainCycle chatId inp st).1.timestamp = st.timestamp := by
  rw [mainCycle]
  split
  · rename_i heq
    rw [heq] at h
    simp at h
  · rename_i e2 evs heq
    split
    · rfl
    · split <;> rfl

/-- C9: whenever the `try` body of a cycle raises — a fetch, validation,
formatting, or notification-send failure — the timestamp cursor is
unchanged for the next cycle, and the next cycle re-polls with the same
`from_date` value. -/
theorem claim_C9 (chatId : String) (inp inp2 : CycleInput) (st : LoopState)
    (e : PyError) (h : (cycleBody chatId inp st).1 = .error e) :
    (mainCycle chatId inp st).1.timestamp = st.timestamp ∧
    pollTimestamps (runLoop chatId [inp, inp2] st).2 =
      [st.timestamp, st.timestamp] := by
  have h1 := mainCycle_error_timestamp chatId inp st e h
  refine ⟨h1, ?_⟩
  simp [runLoop, pollTimestamps_append, mainCycle_polls, h1]

/-- C9 witness: a transport failure leaves the cursor at 5— the next cycle
polls with `from_date` 5 again. -/
theorem claim_C9_witness :
    (mainCycle "chat" ⟨.transportError "x", false, false, 7⟩
      ⟨5, ""⟩).1.timestamp = 5 ∧
    pollTimestamps (runLoop "chat" [⟨.transportError "x", false, false, 7⟩,
      ⟨.transportError "y", false, false, 8⟩] ⟨5, ""⟩).2 = [5, 5] :=
  claim_C9 "chat" ⟨.transportError "x", false, false, 7⟩
    ⟨.transportError "y", false, false, 8⟩ ⟨5, ""⟩
    (.connectionFailed ENDPOINT 5 "x") rfl

/-- C6: once the loop runs, every cycle ends in its sleep and the loop goes
on — the run of any input list performs exactly one sleep per cycle, no
exception escaping a cycle body (fetch, validate, format, notify, or the
operator-notification attempt, which only raises the suppressed
`ApiException` kind) prevents that — and any cycle whose body raises logs
at error severity. -/
theorem claim_C6 (chatId : String) (inputs : List CycleInput) (st : LoopState) :
    countSleeps (runLoop chatId inputs st).2 = inputs.length ∧
    (∀ inp st2 e, (cycleBody chatId inp st2).1 = .error e →
      hasLogError (mainCycle chatId inp st2).2 = true) := by
  constructor
  · induction inputs generalizing st with
    | nil => rfl
    | cons inp rest ih =>
      simp [runLoop, countSleeps_append, mainCycle_one_sleep, ih]
      omega
  · intro inp st2 e h
    rw [mainCycle]
    split
    · rename_i heq
      rw [heq] at h
      simp at h
    · rename_i e2 evs heq
      split
      · simp [hasLogError, Event.isLogError, List.any_append]
      · split
        · rename_i prev evs2 hsend
          simp [hasLogError, Event.isLogError, List.any_append]
        · rename_i v f2 evs2 hsend
          simp [hasLogError, Event.isLogError, List.any_append]

/-- C6 witness: a failing cycle still sleeps once and logs at error
severity. -/
theorem claim_C6_witness :
    countSleeps (runLoop "chat" [⟨.transportError "boom", false, false, 0⟩]
      ⟨0, ""⟩).2 = 1 ∧
    hasLogError (mainCycle "chat" ⟨.transportError "boom", false, false, 0⟩
      ⟨0, ""⟩).2 = true :=
  ⟨(claim_C6 "chat" [⟨.transportError "boom", false, false, 0⟩] ⟨0, ""⟩).1,
   (claim_C6 "chat" [] ⟨0, ""⟩).2 ⟨.transportError "boom", false, false, 0⟩
     ⟨0, ""⟩ (.connectionFailed ENDPOINT 0 "boom") rfl⟩

/-- Sample API response: one homework, `proj1`, `approved`. -/
def sampleResponse : Json :=
  .obj [("homeworks",
    .arr [.obj [("homework_name", .str "proj1"), ("status", .str "approved")]])]

/-- C5 (counterexample to the claim as stated): a cycle whose response
carries a non-empty `homeworks` list but whose notification send raises
`ApiException` leaves the cursor at 100 instead of advancing it to the
current time 999, so the cursor does not advance "regardless of whether
the notification succeeded". -/
theorem claim_C5_counterexample :
    (mainCycle "chat" ⟨.response 200 sampleResponse, true, false, 999⟩
      ⟨100, ""⟩).1.timestamp = 100 ∧
    (mainCycle "chat" ⟨.response 200 sampleResponse, true, false, 999⟩
      ⟨100, ""⟩).1.timestamp ≠ 999 :=
  ⟨rfl, by decide⟩

lemma send_message_ok (chatId m p : String) :
    (send_message chatId false m p).1 = none := by
  by_cases h : m = p <;> simp [send_message, h]

lemma send_message_skip (chatId : String) (b : Bool) (p : String) :
    send_message chatId b p p =
      (none, p, [.logDebug "Полуено повторяющееся сообщение. Пропускаю."]) := by
  simp [send_message]

/-- C5 (amended): with a non-empty `homeworks` list, the cursor advances to
now when the notification step returns without raising — in particular
regardless of whether the send was deduplicated, since a dedup skip raises
nothing — while an empty list leaves the state unchanged, sends nothing
outbound, and logs the no-change debug line. -/
theorem claim_C5 (chatId : String) (st : LoopState) (resp resp2 hw : Json)
    (rest : List Json) (msg : String) (now : Int) (er b1 : Bool)
    (hchk : check_response resp = .ok ())
    (hhw : resp.pyGet "homeworks" = .arr (hw :: rest))
    (hps : parse_status hw = .ok msg) :
    (mainCycle chatId ⟨.response 200 resp, false, er, now⟩ st).1.timestamp
        = now ∧
    (msg = st.previous_message →
      (mainCycle chatId ⟨.response 200 resp, true, er, now⟩ st).1.timestamp
        = now) ∧
    (check_response resp2 = .ok () → resp2.pyGet "homeworks" = .arr [] →
      (mainCycle chatId ⟨.response 200 resp2, b1, er, now⟩ st).1 = st ∧
      countBotSends
        (mainCycle chatId ⟨.response 200 resp2, b1, er, now⟩ st).2 = 0 ∧
      Event.logDebug "Статус домашней работы не изменился." ∈
        (mainCycle chatId ⟨.response 200 resp2, b1, er, now⟩ st).2) := by
  have hga : get_api_answer st.timestamp (HttpOutcome.response 200 resp) =
      .ok resp := rfl
  refine ⟨?_, ?_, ?_⟩
  · rcases hsend : send_message chatId false msg st.previous_message
      with ⟨o, prev, sevs⟩
    have ho : o = none := by
      have h2 := send_message_ok chatId msg st.previous_message
      rw [hsend] at h2
      exact h2
    subst ho
    simp [mainCycle, cycleBody, hga, hchk, hhw, hps, hsend]
  · intro hmp
    subst hmp
    simp [mainCycle, cycleBody, hga, hchk, hhw, hps, send_message_skip]
  · intro hc2 hw2
    have hga2 : get_api_answer st.timestamp (HttpOutcome.response 200 resp2) =
        .ok resp2 := rfl
    have hred : mainCycle chatId ⟨.response 200 resp2, b1, er, now⟩ st =
        (st, [.apiPoll st.timestamp,
          .logDebug "Статус домашней работы не изменился.",
          .sleep RETRY_PERIOD]) := by
      simp [mainCycle, cycleBody, hga2, hc2, hw2]
    rw [hred]
    refine ⟨rfl, rfl, ?_⟩
    simp

/-- C5 witness: a successful notify cycle advances the cursor from 100 to
the current time 999. -/
theorem claim_C5_witness :
    (mainCycle "chat" ⟨.response 200 sampleResponse, false, false, 999⟩
      ⟨100, ""⟩).1.timestamp = 999 :=
  (claim_C5 "chat" ⟨100, ""⟩ sampleResponse .null
    (.obj [("homework_name", .str "proj1"), ("status", .str "approved")])
    [] "Изменился статус проверки работы \"proj1\". Работа проверена: ревьюеру всё понравилось. Ура!"
    999 false false rfl rfl rfl).1

/-- C7: if any of the three required configuration values is unset or
empty, `check_tokens` logs at critical severity and raises the
configuration `ValueError` naming the missing variables, and a process run
issues no HTTP poll and no outbound bot call; if all three are present and
non-empty, `check_tokens` raises nothing and logs nothing. -/
theorem claim_C7 (env : Env) (startTime : Int) (inputs : List CycleInput) :
    ((falsyEnvVar env.PRACTICUM_TOKEN || falsyEnvVar env.TELEGRAM_TOKEN ||
        falsyEnvVar env.TELEGRAM_CHAT_ID) = true →
      (∃ vars, vars ≠ [] ∧
        (check_tokens env).1 = .error (.missingEnvVars vars)) ∧
      (∃ m, Event.logCritical m ∈ (check_tokens env).2) ∧
      (mainStart env startTime inputs).filter Event.isApiPoll = [] ∧
      (mainStart env startTime inputs).filter Event.isBotSend = []) ∧
    ((falsyEnvVar env.PRACTICUM_TOKEN || falsyEnvVar env.TELEGRAM_TOKEN ||
        falsyEnvVar env.TELEGRAM_CHAT_ID) = false →
      check_tokens env = (.ok (), [])) := by
  cases hP : falsyEnvVar env.PRACTICUM_TOKEN <;>
    cases hT : falsyEnvVar env.TELEGRAM_TOKEN <;>
      cases hC : falsyEnvVar env.TELEGRAM_CHAT_ID <;>
        constructor <;> intro h <;>
          simp_all [check_tokens, mainStart, Event.isApiPoll, Event.isBotSend]

/-- C7 witness: with the API token unset, the run makes no poll; with all
three values set and non-empty, `check_tokens` raises nothing. -/
theorem claim_C7_witness :
    (mainStart ⟨none, some "t", some "c"⟩ 0 []).filter Event.isApiPoll = [] ∧
    check_tokens ⟨some "a", some "b", some "c"⟩ = (.ok (), []) :=
  ⟨((claim_C7 ⟨none, some "t", some "c"⟩ 0 []).1 (by decide)).2.2.1,
   (claim_C7 ⟨some "a", some "b", some "c"⟩ 0 []).2 (by decide)⟩

end CheckStatusBot
